import Mathlib

/-!
# Verification of the plasmaSnow window-tracking and drag-detection module

This development shallowly embeds the window-tracking module of plasmaSnow
(`src/windows.c`): the drag-state tracker driven by X11 event handlers
(`onWindowCreated`, `onWindowMapped`, `onWindowUnmapped`, `onWindowDestroyed`,
`onAppWindowChange`), the periodic reconciliation loop (`updateWindowsList`),
workspace discovery (`getCurrentWorkspaceData`) and the Xinerama screen query
(`getXineramaScreenInfo`).

X11 window ids are modelled as `Nat` with `None = 0`.  Calls into the X
server, xdo, and the FallenSnow accumulation engine are modelled as
environment records (query results) and emitted effect lists.
-/

namespace PlasmaSnow

/-- One entry of `mGlobal.winInfoList` (window id plus position), as used by
`windows.c`.  The full `WinInfo` struct lives in `WinInfo.c` (not part of the
sources); only the fields read by `windows.c` are modelled. -/
structure WinInfo where
  window : Nat
  x : Int
  y : Int
deriving DecidableEq

/-- Observable side effects of the module: calls into the X server / xdo
(probe-window operations), the FallenSnow accumulation engine, the lock, and
user-visible fatal error reports.  Emitted in source order. -/
inductive Effect where
  | refreshWinList
  | unlock
  | fatalError
  | fallenUpdates
  | removeSnowWin (w : Nat)
  | removeSnowAll
  | probeDestroy
  | probeCreate
  | probeMapOp
  | probeMove (i : Nat)
  | probeWaitMap (i : Nat)
  | probeUnmap
deriving DecidableEq

/-- The module-global state of `windows.c`: the drag-state globals
(`mIsWindowBeingDragged`, `mWindowBeingDragged`, `mActiveAppDragWindowCandidate`),
the active-app globals, the statics of `updateWindowsList` (`wcounter`) and of
`getCurrentWorkspaceData` (`probeWindow`), and the `mGlobal` fields that
`windows.c` reads or writes. -/
structure St where
  mIsWindowBeingDragged : Bool
  mWindowBeingDragged : Nat
  mActiveAppDragWindowCandidate : Nat
  mActiveAppWindow : Nat
  mActiveAppXPos : Int
  mActiveAppYPos : Int
  mUpdateWindowsLockCounter : Int
  wcounter : Nat
  windowsChanged : Bool
  shutdownRequested : Bool
  noKeepSnowOnWindows : Bool
  currentWorkspace : Int
  nVisWorkSpaces : Nat
  visWorkSpaces : List Int
  winInfoList : List WinInfo
  snowWin : Nat
  rootwindow : Nat
  hasTransparentWindow : Bool
  hasDestopWindow : Bool
  snowWinWidth : Int
  snowWinHeight : Int
  snowWinX : Int
  snowWinY : Int
  windowOffsetX : Int
  windowOffsetY : Int
  probeWindow : Nat
deriving DecidableEq

/-- `const int mINVALID_POSITION = -1;` -/
def mINVALID_POSITION : Int := -1

/-- Result of `XQueryPointer` as consumed by
`isMouseClickedAndHeldInWindow`: whether a pointer state was found, and the
raw modifier/button mask. -/
structure PointerQuery where
  found : Bool
  pointerState : Nat
deriving DecidableEq

/-- `isMouseClickedAndHeldInWindow`: the pointer query succeeded and the
`POINTER_CLICKDOWN = 256` bit (Button1 held) is set in the mask. -/
def isMouseClickedAndHeldInWindow (q : PointerQuery) : Bool :=
  q.found && (q.pointerState &&& 256 != 0)

/-- Environment for the event handlers: the fresh window list returned by
`getWinInfoForAllWindows` (from `WinInfo.c`, a collaborator), the
`XQueryPointer` result per window, the `XGetInputFocus` result, the
`XQueryTree` parent oracle (`none` models a failed query), and a bound on the
ancestor walk of `getDragWindowOf`. -/
structure HandlerEnv where
  newWinInfoList : List WinInfo
  pointerQuery : Nat → PointerQuery
  focusedWindow : Nat
  parentOf : Nat → Option Nat
  queryFuel : Nat

/-- `getDragWindowOf`: walk up from `w` through the `XQueryTree` ancestor
chain until a node that appears in the current window list is found (return
it), a tree query fails (return `None = 0`), or the fuel bounding the walk
runs out. -/
def getDragWindowOf (winList : List WinInfo) (parentOf : Nat → Option Nat) :
    Nat → Nat → Nat
  | _, 0 => 0
  | w, fuel + 1 =>
    if winList.any (fun wi => wi.window == w) then w
    else
      match parentOf w with
      | none => 0
      | some p => getDragWindowOf winList parentOf p fuel

/-- `setIsWindowBeingDragged(false); setWindowBeingDragged(None);
setActiveAppDragWindowCandidate(None);` -/
def clearAllDragFields (s : St) : St :=
  { s with mIsWindowBeingDragged := false
           mWindowBeingDragged := 0
           mActiveAppDragWindowCandidate := 0 }

/-- `clearAllActiveAppFields`: reset the active-app window and position to
their sentinels, then clear all drag fields. -/
def clearAllActiveAppFields (s : St) : St :=
  clearAllDragFields
    { s with mActiveAppWindow := 0
             mActiveAppXPos := mINVALID_POSITION
             mActiveAppYPos := mINVALID_POSITION }

/-- Modelled from the spec: `getWinInfoForWindow` lives in `WinInfo.c`, which
is not among the sources; per §4.1 `lookup(windowId) → WindowRecord?` returns
the snapshot record for the id or none. -/
def getWinInfoForWindow (l : List WinInfo) (w : Nat) : Option WinInfo :=
  l.find? (fun wi => wi.window == w)

/-- `onAppWindowChange`: clear the active-app and drag fields, record the new
active window, and look its position up in the snapshot (leaving the
`mINVALID_POSITION` sentinels when absent). -/
def onAppWindowChange (s : St) (window : Nat) : St :=
  let s := clearAllActiveAppFields s
  let s := { s with mActiveAppWindow := window }
  match getWinInfoForWindow s.winInfoList s.mActiveAppWindow with
  | some wi => { s with mActiveAppXPos := wi.x, mActiveAppYPos := wi.y }
  | none => s

/-- The fields of an `XCreateWindowEvent` read by `onWindowCreated`. -/
structure XCreateWindowEvent where
  send_event : Nat
  window : Nat
  parent : Nat
  x : Int
  y : Int
  width : Int
  height : Int
  border_width : Int
  override_redirect : Nat
deriving DecidableEq

/-- `onWindowCreated`: refresh the window list, then record the created
window as the drag-window candidate unless any field of the transient Plasma
drag-window signature mismatches (each mismatch is an early return). -/
def onWindowCreated (s : St) (env : HandlerEnv) (e : XCreateWindowEvent) :
    St × List Effect :=
  let s := { s with winInfoList := env.newWinInfoList }
  if e.send_event ≠ 0 then (s, [Effect.refreshWinList])
  else if e.parent ≠ s.rootwindow then (s, [Effect.refreshWinList])
  else if e.x ≠ 0 then (s, [Effect.refreshWinList])
  else if e.y ≠ 0 then (s, [Effect.refreshWinList])
  else if e.width ≠ s.snowWinWidth then (s, [Effect.refreshWinList])
  else if e.height ≠ s.snowWinHeight then (s, [Effect.refreshWinList])
  else if e.border_width ≠ 0 then (s, [Effect.refreshWinList])
  else if e.override_redirect ≠ 0 then (s, [Effect.refreshWinList])
  else ({ s with mActiveAppDragWindowCandidate := e.window },
        [Effect.refreshWinList])

/-- The full drag-window-candidate signature, stated as in the specification:
non-synthetic, child of root, at the origin, overlay-sized, zero border, not
override-redirect. -/
abbrev createMatchesDragSignature (s : St) (e : XCreateWindowEvent) : Prop :=
  e.send_event = 0 ∧ e.parent = s.rootwindow ∧ e.x = 0 ∧ e.y = 0 ∧
  e.width = s.snowWinWidth ∧ e.height = s.snowWinHeight ∧
  e.border_width = 0 ∧ e.override_redirect = 0

/-- The fields of an `XMapEvent` read by `onWindowMapped`. -/
structure XMapEvent where
  send_event : Nat
  window : Nat
  event : Nat
  override_redirect : Nat
deriving DecidableEq

/-- The click-and-hold drag heuristic of `onWindowMapped`: the window the
drag resolves to, or `0` when any of its nested guards fails (not already
dragging, pointer held in the mapped window, non-`None` mapped and focused
windows, and a successful ancestor resolution). -/
def clickDragTarget (s : St) (env : HandlerEnv) (e : XMapEvent) : Nat :=
  if s.mIsWindowBeingDragged then 0
  else if !isMouseClickedAndHeldInWindow (env.pointerQuery e.window) then 0
  else if e.window = 0 then 0
  else if env.focusedWindow = 0 then 0
  else getDragWindowOf env.newWinInfoList env.parentOf env.focusedWindow
    env.queryFuel

/-- `onWindowMapped`: refresh the window list; if the click-and-hold
heuristic resolves a drag window, enter the click drag state and clear that
window's snow (early return).  Otherwise check the transient Plasma
keyboard-drag signature and, when it matches, set the drag state from the
active app window, clearing snow from all windows when a drag results. -/
def onWindowMapped (s : St) (env : HandlerEnv) (e : XMapEvent) :
    St × List Effect :=
  let s := { s with winInfoList := env.newWinInfoList }
  let dragWindow := clickDragTarget s env e
  if dragWindow ≠ 0 then
    ({ s with mIsWindowBeingDragged := true, mWindowBeingDragged := dragWindow },
     [Effect.refreshWinList, Effect.removeSnowWin dragWindow])
  else
    let isActiveAppMoving :=
      (e.send_event == 0) && (e.window == s.mActiveAppDragWindowCandidate) &&
      (e.event == s.rootwindow) && (e.override_redirect == 0)
    if isActiveAppMoving then
      let s2 := { s with mIsWindowBeingDragged := s.mActiveAppWindow != 0
                         mWindowBeingDragged := s.mActiveAppWindow }
      if s2.mIsWindowBeingDragged then
        (s2, [Effect.refreshWinList, Effect.removeSnowAll])
      else (s2, [Effect.refreshWinList])
    else (s, [Effect.refreshWinList])

/-- `onWindowUnmapped`: refresh the window list and clear the drag state if a
drag is in progress. -/
def onWindowUnmapped (s : St) (env : HandlerEnv) : St × List Effect :=
  let s := { s with winInfoList := env.newWinInfoList }
  if s.mIsWindowBeingDragged then (clearAllDragFields s, [Effect.refreshWinList])
  else (s, [Effect.refreshWinList])

/-- `onWindowDestroyed`: refresh the window list and clear the drag state if
a drag is in progress. -/
def onWindowDestroyed (s : St) (env : HandlerEnv) : St × List Effect :=
  let s := { s with winInfoList := env.newWinInfoList }
  if s.mIsWindowBeingDragged then (clearAllDragFields s, [Effect.refreshWinList])
  else (s, [Effect.refreshWinList])

/-- `SOMENUMBER` comes from a header that is not among the sources; only its
positivity matters (the `prev` tracker starts at `-SOMENUMBER`, a value below
any valid workspace id).  Modelled from the spec: workspace ids are
non-negative, a sentinel below zero. -/
def SOMENUMBER : Int := 10000

/-- One Xinerama screen geometry entry. -/
structure XineramaEntry where
  x_org : Int
  y_org : Int
  width : Int
  height : Int
deriving DecidableEq

/-- Environment for `getCurrentWorkspaceData`: the `XineramaQueryScreens`
result (`none` models a NULL info array), the id `XCreateWindow` would assign
to a fresh probe window, and the per-monitor `xdo_get_desktop_for_window`
result (`none` models `XDO_ERROR`). -/
structure WsEnv where
  xinerama : Option (List XineramaEntry)
  newProbeWindow : Nat
  desktopFor : Nat → Option Int

/-- Accumulator of the per-monitor probe loop in `getCurrentWorkspaceData`:
visible-workspace entries written so far, the `prev` workspace tracker, the
window offsets, and the probe operations performed. -/
structure WsScan where
  vis : List Int
  prev : Int
  offX : Int
  offY : Int
  effs : List Effect

/-- `getCurrentWorkspaceData`: without a desktop window, or when Xinerama
reports one monitor or no array, the visible set is trivially the current
workspace.  Otherwise a probe window is created, mapped, moved to the center
of each monitor and queried for its workspace; a leftover probe window from a
previous pass is destroyed first (before the Xinerama query). -/
def getCurrentWorkspaceData (s : St) (env : WsEnv) : St × List Effect :=
  if s.hasDestopWindow = false then
    ({ s with nVisWorkSpaces := 1, visWorkSpaces := [s.currentWorkspace] }, [])
  else
    let destroyEffs := if s.probeWindow ≠ 0 then [Effect.probeDestroy] else []
    match env.xinerama with
    | none =>
      ({ s with nVisWorkSpaces := 1, visWorkSpaces := [s.currentWorkspace] },
       destroyEffs)
    | some monitors =>
      if monitors.length = 1 then
        ({ s with nVisWorkSpaces := 1, visWorkSpaces := [s.currentWorkspace] },
         destroyEffs)
      else
        let scan := (List.range monitors.length).foldl
          (fun (a : WsScan) i =>
            let desktop := (env.desktopFor i).getD s.currentWorkspace
            let a' := { a with
              effs := a.effs ++ [Effect.probeMove i, Effect.probeWaitMap i]
              vis := a.vis ++ [desktop] }
            if desktop ≠ a.prev then
              if a.prev ≥ 0 then { a' with offX := 0, offY := 0, prev := desktop }
              else { a' with prev := desktop }
            else a')
          { vis := [], prev := -SOMENUMBER, offX := s.windowOffsetX
            offY := s.windowOffsetY, effs := [] }
        ({ s with probeWindow := env.newProbeWindow
                  nVisWorkSpaces := monitors.length
                  visWorkSpaces := scan.vis
                  windowOffsetX := scan.offX
                  windowOffsetY := scan.offY },
         destroyEffs ++ [Effect.probeCreate, Effect.probeMapOp] ++ scan.effs ++
           [Effect.probeUnmap])

/-- Result of `getXineramaScreenInfo`: the returned value (`FALSE = 0` when
the info array is NULL, its length otherwise), the four out-parameters, and
the array indices the function reads (to audit bounds). -/
structure XineramaResult where
  ret : Int
  posX : Int
  posY : Int
  width : Int
  height : Int
  readIndices : List Int
deriving DecidableEq

/-- `getXineramaScreenInfo`: bound the requested screen to the array
(`requestScreen <= infoArrayLength ? requestScreen : infoArrayLength`); when
the bounded index is non-negative, read that entry and return the length;
otherwise return position 0/0 and the componentwise maximal width/height over
the array.  Reads past the end of the list are modelled by `getD` with a
zeroed entry, and every index read is recorded in `readIndices`. -/
def getXineramaScreenInfo (infoArray : Option (List XineramaEntry))
    (requestScreen : Int) : XineramaResult :=
  match infoArray with
  | none => { ret := 0, posX := 0, posY := 0, width := 0, height := 0
              readIndices := [] }
  | some arr =>
    let infoArrayLength : Int := arr.length
    let boundedRequestScreeen :=
      if requestScreen ≤ infoArrayLength then requestScreen
      else infoArrayLength
    if boundedRequestScreeen ≥ 0 then
      let item := arr.getD boundedRequestScreeen.toNat ⟨0, 0, 0, 0⟩
      { ret := infoArrayLength, posX := item.x_org, posY := item.y_org
        width := item.width, height := item.height
        readIndices := [boundedRequestScreeen] }
    else
      let best := arr.foldl
        (fun (b : Int × Int) wi => (max b.1 wi.width, max b.2 wi.height))
        (0, 0)
      { ret := infoArrayLength, posX := 0, posY := 0
        width := best.1, height := best.2
        readIndices := (List.range arr.length).map (fun i => (i : Int)) }

/-- Environment for one `updateWindowsList` tick: whether
`softLockFallenSnowBaseSemaphore` grants the lock, the retry counter it
leaves behind, whether an event handler raised `mGlobal.WindowsChanged`
concurrently (injected at the start of the locked section), the
`getCurrentWorkspaceNumber` result, the fresh window list, and the workspace
discovery environment. -/
structure TickEnv where
  lockAcquired : Bool
  lockCounterAfter : Int
  changedExternally : Bool
  workspaceNumber : Int
  newWinInfoList : List WinInfo
  wsEnv : WsEnv

/-- The tail of `updateWindowsList` once the change flag has been consumed
(source lines 429–478): the fatal negative-workspace check, workspace
discovery on workspace change, the drag short-circuit, the snapshot rebuild
with offset correction, the overlay-window sanity check, and the
accumulation-engine reconciliation. -/
def processChangedTick (s : St) (env : TickEnv) : St × Bool × List Effect :=
  if env.workspaceNumber < 0 then
    ({ s with shutdownRequested := true }, true,
     [Effect.unlock, Effect.fatalError])
  else
    let wsStep :=
      if s.currentWorkspace ≠ env.workspaceNumber then
        getCurrentWorkspaceData
          { s with currentWorkspace := env.workspaceNumber } env.wsEnv
      else (s, [])
    let s := wsStep.1
    let wsEffs := wsStep.2
    if s.mIsWindowBeingDragged then
      (s, true, wsEffs ++ [Effect.fallenUpdates, Effect.unlock])
    else
      let s := { s with winInfoList := env.newWinInfoList.map (fun wi =>
        { wi with x := wi.x + s.windowOffsetX - s.snowWinX
                  y := wi.y + s.windowOffsetY - s.snowWinY }) }
      let sanity :=
        if s.snowWin ≠ s.rootwindow ∧
           (getWinInfoForWindow s.winInfoList s.snowWin).isNone = true ∧
           s.hasTransparentWindow = false then
          ({ s with shutdownRequested := true }, [Effect.fatalError])
        else (s, ([] : List Effect))
      (sanity.1, true,
       wsEffs ++ [Effect.refreshWinList] ++ sanity.2 ++
         [Effect.fallenUpdates, Effect.unlock])

/-- The body of `updateWindowsList` once the soft lock is held (source lines
416–427): the every-10th forcing of the change flag via the `wcounter`
static, and the unchanged skip.  A concurrent raise of
`mGlobal.WindowsChanged` by an event handler is injected here. -/
def lockedTick (s : St) (env : TickEnv) : St × Bool × List Effect :=
  let s := { s with windowsChanged := s.windowsChanged || env.changedExternally }
  let w := s.wcounter + 1
  let s :=
    if w > 9 then { s with windowsChanged := true, wcounter := 0 }
    else { s with wcounter := w }
  if !s.windowsChanged then (s, true, [Effect.unlock])
  else processChangedTick { s with windowsChanged := false } env

/-- `updateWindowsList`, one tick of the reconciliation loop: early returns
for shutdown, the no-keep-snow flag, and a contended soft lock; otherwise
the locked body.  Returns the new state, the boolean handed back to the
scheduler, and the effects in source order. -/
def updateWindowsList (s : St) (env : TickEnv) : St × Bool × List Effect :=
  if s.shutdownRequested then (s, false, [])
  else if s.noKeepSnowOnWindows then (s, true, [])
  else if !env.lockAcquired then
    ({ s with mUpdateWindowsLockCounter := env.lockCounterAfter }, true, [])
  else lockedTick { s with mUpdateWindowsLockCounter := env.lockCounterAfter }
    env

/-- Iterated reconciliation ticks: `runTicks s envs k` is the state after the
first `k` ticks, tick `k + 1` consuming `envs k`. -/
def runTicks (s : St) (envs : Nat → TickEnv) : Nat → St
  | 0 => s
  | k + 1 => (updateWindowsList (runTicks s envs k) (envs k)).1

/-- The scheduler boolean returned by tick `k + 1` of a run. -/
def tickRet (s : St) (envs : Nat → TickEnv) (k : Nat) : Bool :=
  (updateWindowsList (runTicks s envs k) (envs k)).2.1

/-- The effects emitted by tick `k + 1` of a run. -/
def tickEffs (s : St) (envs : Nat → TickEnv) (k : Nat) : List Effect :=
  (updateWindowsList (runTicks s envs k) (envs k)).2.2

/-- A concrete quiescent module state used by witnesses: no drag, empty
snapshot, one workspace, overlay window = root = 1. -/
def st0 : St where
  mIsWindowBeingDragged := false
  mWindowBeingDragged := 0
  mActiveAppDragWindowCandidate := 0
  mActiveAppWindow := 0
  mActiveAppXPos := -1
  mActiveAppYPos := -1
  mUpdateWindowsLockCounter := 0
  wcounter := 0
  windowsChanged := false
  shutdownRequested := false
  noKeepSnowOnWindows := false
  currentWorkspace := 0
  nVisWorkSpaces := 1
  visWorkSpaces := [0]
  winInfoList := []
  snowWin := 1
  rootwindow := 1
  hasTransparentWindow := false
  hasDestopWindow := true
  snowWinWidth := 1920
  snowWinHeight := 1080
  snowWinX := 0
  snowWinY := 0
  windowOffsetX := 0
  windowOffsetY := 0
  probeWindow := 0

/-- A concrete state in which window 3 is being dragged. -/
def stDrag : St :=
  { st0 with mIsWindowBeingDragged := true
             mWindowBeingDragged := 3
             mActiveAppDragWindowCandidate := 7
             mActiveAppWindow := 3 }

/-- A concrete handler environment: empty refreshed snapshot, no pointer
button held, nothing focused. -/
def envH0 : HandlerEnv where
  newWinInfoList := []
  pointerQuery := fun _ => { found := false, pointerState := 0 }
  focusedWindow := 0
  parentOf := fun _ => none
  queryFuel := 4

/-- A concrete map event from the root window for window 7. -/
def evMap0 : XMapEvent where
  send_event := 0
  window := 7
  event := 1
  override_redirect := 0

/-- A workspace-discovery environment whose Xinerama query reports exactly
one monitor. -/
def wsEnv1 : WsEnv where
  xinerama := some [⟨0, 0, 1920, 1080⟩]
  newProbeWindow := 11
  desktopFor := fun _ => none

/-- A state carrying a probe window left over from a previous
multi-monitor discovery pass. -/
def stProbe : St := { st0 with probeWindow := 5 }

/-- A state whose drag-window candidate is 7 and whose active app window
is 9. -/
def stC1 : St :=
  { st0 with mActiveAppDragWindowCandidate := 7, mActiveAppWindow := 9 }

/-- A handler environment in which the pointer button is held in every
window, window 7 is focused, and window 7 is in the refreshed snapshot. -/
def envC1 : HandlerEnv where
  newWinInfoList := [⟨7, 0, 0⟩]
  pointerQuery := fun _ => { found := true, pointerState := 256 }
  focusedWindow := 7
  parentOf := fun _ => none
  queryFuel := 4

/-- `envC1` with the pointer button released. -/
def envC1k : HandlerEnv :=
  { envC1 with pointerQuery := fun _ => { found := false, pointerState := 0 } }

/-- A tick environment in which the soft lock is unavailable. -/
def envLocked : TickEnv where
  lockAcquired := false
  lockCounterAfter := 1
  changedExternally := false
  workspaceNumber := 0
  newWinInfoList := []
  wsEnv := wsEnv1

/-- A tick environment in which the soft lock is granted, no event handler
raced, and the workspace query returns the unchanged workspace 0. -/
def envTick : TickEnv := { envLocked with lockAcquired := true }

/-- A tick environment whose workspace query returns the invalid sentinel. -/
def envFatal : TickEnv := { envTick with workspaceNumber := -1 }

/-- `st0` with the windows-changed flag raised. -/
def stChanged : St := { st0 with windowsChanged := true }

/-- C2: `onWindowCreated` records the created window as the drag-window
candidate exactly when every field of the signature matches (non-synthetic,
child of root, origin, overlay-sized, zero border, not override-redirect);
on any single mismatch the stored candidate is unchanged. -/
theorem onWindowCreated_candidate_iff_signature (s : St) (env : HandlerEnv)
    (e : XCreateWindowEvent) :
    (onWindowCreated s env e).1.mActiveAppDragWindowCandidate =
      if createMatchesDragSignature s e then e.window
      else s.mActiveAppDragWindowCandidate := by
  unfold onWindowCreated
  split_ifs <;> simp_all [createMatchesDragSignature]

/-- C8: `onAppWindowChange` leaves the drag state fully cleared, records the
new active window id, and records its snapshot position, both coordinates
staying at the `mINVALID_POSITION` sentinel when no snapshot record exists. -/
theorem onAppWindowChange_resets_then_records (s : St) (w : Nat) :
    (onAppWindowChange s w).mActiveAppWindow = w ∧
    (onAppWindowChange s w).mIsWindowBeingDragged = false ∧
    (onAppWindowChange s w).mWindowBeingDragged = 0 ∧
    (onAppWindowChange s w).mActiveAppDragWindowCandidate = 0 ∧
    (onAppWindowChange s w).mActiveAppXPos =
      ((getWinInfoForWindow s.winInfoList w).map WinInfo.x).getD
        mINVALID_POSITION ∧
    (onAppWindowChange s w).mActiveAppYPos =
      ((getWinInfoForWindow s.winInfoList w).map WinInfo.y).getD
        mINVALID_POSITION := by
  unfold onAppWindowChange clearAllActiveAppFields clearAllDragFields
  cases h : getWinInfoForWindow s.winInfoList w <;> simp_all

/-- C4: processing a window-unmapped or window-destroyed event while a drag
is in progress resets the drag state to Idle (dragged flag false, dragged
window `None`, candidate `None`), and processing a further unmap or destroy
in that Idle state leaves it Idle. -/
theorem unmap_destroy_reset_idempotent (s t : St) (env env2 : HandlerEnv)
    (hdrag : s.mIsWindowBeingDragged = true)
    (hidle : t.mIsWindowBeingDragged = false ∧ t.mWindowBeingDragged = 0 ∧
      t.mActiveAppDragWindowCandidate = 0) :
    ((onWindowUnmapped s env).1.mIsWindowBeingDragged = false ∧
     (onWindowUnmapped s env).1.mWindowBeingDragged = 0 ∧
     (onWindowUnmapped s env).1.mActiveAppDragWindowCandidate = 0) ∧
    ((onWindowDestroyed s env).1.mIsWindowBeingDragged = false ∧
     (onWindowDestroyed s env).1.mWindowBeingDragged = 0 ∧
     (onWindowDestroyed s env).1.mActiveAppDragWindowCandidate = 0) ∧
    ((onWindowUnmapped t env2).1.mIsWindowBeingDragged = false ∧
     (onWindowUnmapped t env2).1.mWindowBeingDragged = 0 ∧
     (onWindowUnmapped t env2).1.mActiveAppDragWindowCandidate = 0) ∧
    ((onWindowDestroyed t env2).1.mIsWindowBeingDragged = false ∧
     (onWindowDestroyed t env2).1.mWindowBeingDragged = 0 ∧
     (onWindowDestroyed t env2).1.mActiveAppDragWindowCandidate = 0) := by
  unfold onWindowUnmapped onWindowDestroyed clearAllDragFields
  simp_all

/-- C4 witness: a concrete dragging state is reset by unmap/destroy, and a
concrete Idle state stays Idle. -/
theorem unmap_destroy_reset_idempotent_witness :
    ((onWindowUnmapped stDrag envH0).1.mIsWindowBeingDragged = false ∧
     (onWindowUnmapped stDrag envH0).1.mWindowBeingDragged = 0 ∧
     (onWindowUnmapped stDrag envH0).1.mActiveAppDragWindowCandidate = 0) ∧
    ((onWindowDestroyed stDrag envH0).1.mIsWindowBeingDragged = false ∧
     (onWindowDestroyed stDrag envH0).1.mWindowBeingDragged = 0 ∧
     (onWindowDestroyed stDrag envH0).1.mActiveAppDragWindowCandidate = 0) ∧
    ((onWindowUnmapped st0 envH0).1.mIsWindowBeingDragged = false ∧
     (onWindowUnmapped st0 envH0).1.mWindowBeingDragged = 0 ∧
     (onWindowUnmapped st0 envH0).1.mActiveAppDragWindowCandidate = 0) ∧
    ((onWindowDestroyed st0 envH0).1.mIsWindowBeingDragged = false ∧
     (onWindowDestroyed st0 envH0).1.mWindowBeingDragged = 0 ∧
     (onWindowDestroyed st0 envH0).1.mActiveAppDragWindowCandidate = 0) :=
  unmap_destroy_reset_idempotent stDrag st0 envH0 envH0 (by decide)
    ⟨by decide, by decide, by decide⟩

/-- C9: the drag-state invariant (a true dragged flag implies a non-`None`
dragged window) is preserved by every drag-transitioning handler, and
`clearAllDragFields` leaves both the dragged window and the candidate
`None`. -/
theorem drag_invariant_preserved (s : St) (env : HandlerEnv) (e : XMapEvent)
    (w : Nat)
    (hinv : s.mIsWindowBeingDragged = true → s.mWindowBeingDragged ≠ 0) :
    ((onWindowMapped s env e).1.mIsWindowBeingDragged = true →
      (onWindowMapped s env e).1.mWindowBeingDragged ≠ 0) ∧
    ((onWindowUnmapped s env).1.mIsWindowBeingDragged = true →
      (onWindowUnmapped s env).1.mWindowBeingDragged ≠ 0) ∧
    ((onWindowDestroyed s env).1.mIsWindowBeingDragged = true →
      (onWindowDestroyed s env).1.mWindowBeingDragged ≠ 0) ∧
    ((onAppWindowChange s w).mIsWindowBeingDragged = true →
      (onAppWindowChange s w).mWindowBeingDragged ≠ 0) ∧
    ((clearAllDragFields s).mIsWindowBeingDragged = true →
      (clearAllDragFields s).mWindowBeingDragged ≠ 0) ∧
    (clearAllDragFields s).mWindowBeingDragged = 0 ∧
    (clearAllDragFields s).mActiveAppDragWindowCandidate = 0 := by
  refine ⟨?_, ?_, ?_, ?_, ?_, by simp [clearAllDragFields],
    by simp [clearAllDragFields]⟩
  · simp only [onWindowMapped]
    split_ifs <;> simp_all
  · simp only [onWindowUnmapped, clearAllDragFields]
    split_ifs <;> simp_all
  · simp only [onWindowDestroyed, clearAllDragFields]
    split_ifs <;> simp_all
  · simp only [onAppWindowChange, clearAllActiveAppFields, clearAllDragFields]
    split <;> simp
  · simp [clearAllDragFields]

/-- C9 witness: the invariant holds after each handler at a concrete
invariant-satisfying state. -/
theorem drag_invariant_preserved_witness :
    ((onWindowMapped stDrag envH0 evMap0).1.mIsWindowBeingDragged = true →
      (onWindowMapped stDrag envH0 evMap0).1.mWindowBeingDragged ≠ 0) ∧
    ((onWindowUnmapped stDrag envH0).1.mIsWindowBeingDragged = true →
      (onWindowUnmapped stDrag envH0).1.mWindowBeingDragged ≠ 0) ∧
    ((onWindowDestroyed stDrag envH0).1.mIsWindowBeingDragged = true →
      (onWindowDestroyed stDrag envH0).1.mWindowBeingDragged ≠ 0) ∧
    ((onAppWindowChange stDrag 4).mIsWindowBeingDragged = true →
      (onAppWindowChange stDrag 4).mWindowBeingDragged ≠ 0) ∧
    ((clearAllDragFields stDrag).mIsWindowBeingDragged = true →
      (clearAllDragFields stDrag).mWindowBeingDragged ≠ 0) ∧
    (clearAllDragFields stDrag).mWindowBeingDragged = 0 ∧
    (clearAllDragFields stDrag).mActiveAppDragWindowCandidate = 0 :=
  drag_invariant_preserved stDrag envH0 evMap0 4 (by decide)

/-- C10: off-by-one in `getXineramaScreenInfo`.  With a one-entry Xinerama
array and `requestScreen = 1`, the bounded index is `1` (since
`1 <= infoArrayLength`), so the function reads `infoArray[1]`, one past the
end of the array, although it does return the array length.  The code's own
comment says the request is bounded "to the array". -/
theorem getXineramaScreenInfo_oob_read_bug :
    (getXineramaScreenInfo (some [⟨0, 0, 1920, 1080⟩]) 1).ret = 1 ∧
    (getXineramaScreenInfo (some [⟨0, 0, 1920, 1080⟩]) 1).readIndices = [1] ∧
    ¬ (∀ i ∈ (getXineramaScreenInfo
        (some [⟨0, 0, 1920, 1080⟩]) 1).readIndices,
        i < (([⟨0, 0, 1920, 1080⟩] : List XineramaEntry).length : Int)) := by
  decide

/-- C5 counterexample: with a one-monitor Xinerama report but a probe window
left over from a previous multi-monitor pass, `getCurrentWorkspaceData`
destroys that leftover window before the early return — one probe-window
operation, refuting "zero probe-window operations". -/
theorem getCurrentWorkspaceData_leftover_probe_cex :
    wsEnv1.xinerama.map List.length = some 1 ∧
    (getCurrentWorkspaceData stProbe wsEnv1).2 = [Effect.probeDestroy] ∧
    ¬ (getCurrentWorkspaceData stProbe wsEnv1).2 = [] := by
  decide

/-- C5 (amended): when the Xinerama query reports exactly one monitor or no
array, `getCurrentWorkspaceData` sets the visible set to exactly the current
workspace, and the only probe-window operation that can occur is the destroy
of a probe window persisting from a previous pass — in particular, with no
leftover probe window there are zero probe-window operations. -/
theorem getCurrentWorkspaceData_single_monitor (s : St) (env : WsEnv)
    (hmon : env.xinerama = none ∨ env.xinerama.map List.length = some 1) :
    (getCurrentWorkspaceData s env).1.nVisWorkSpaces = 1 ∧
    (getCurrentWorkspaceData s env).1.visWorkSpaces = [s.currentWorkspace] ∧
    (getCurrentWorkspaceData s env).2 =
      (if s.hasDestopWindow = true ∧ s.probeWindow ≠ 0 then
        [Effect.probeDestroy] else []) := by
  unfold getCurrentWorkspaceData
  by_cases hd : s.hasDestopWindow = false
  · simp [hd]
  · rcases hmon with h | h
    · simp_all
    · obtain ⟨l, hl, hlen⟩ : ∃ l, env.xinerama = some l ∧ l.length = 1 := by
        cases hx : env.xinerama with
        | none => rw [hx] at h; simp at h
        | some l => rw [hx] at h; simp at h; exact ⟨l, rfl, h⟩
      simp_all

/-- C5 witness: at a concrete state with no leftover probe window and a
one-monitor environment, the visible set is the current workspace and no
probe operation occurs. -/
theorem getCurrentWorkspaceData_single_monitor_witness :
    (getCurrentWorkspaceData st0 wsEnv1).1.nVisWorkSpaces = 1 ∧
    (getCurrentWorkspaceData st0 wsEnv1).1.visWorkSpaces =
      [st0.currentWorkspace] ∧
    (getCurrentWorkspaceData st0 wsEnv1).2 =
      (if st0.hasDestopWindow = true ∧ st0.probeWindow ≠ 0 then
        [Effect.probeDestroy] else []) :=
  getCurrentWorkspaceData_single_monitor st0 wsEnv1 (Or.inr (by decide))

/-- C1 counterexample: an event matching the keyboard-drag signature while
the active app window is non-`None`, but with the pointer button held in the
mapped window and the focused window resolving in the snapshot: the
click-and-hold heuristic preempts with its early return, the dragged window
is the resolved click target (7), not the active app window (9), and the
clear-all signal does not fire. -/
theorem onWindowMapped_click_preempts_keyboard_cex :
    (evMap0.send_event = 0 ∧
     evMap0.window = stC1.mActiveAppDragWindowCandidate ∧
     evMap0.event = stC1.rootwindow ∧ evMap0.override_redirect = 0 ∧
     stC1.mActiveAppWindow ≠ 0) ∧
    ¬ ((onWindowMapped stC1 envC1 evMap0).1.mIsWindowBeingDragged = true ∧
       (onWindowMapped stC1 envC1 evMap0).1.mWindowBeingDragged =
         stC1.mActiveAppWindow ∧
       (onWindowMapped stC1 envC1 evMap0).2.count Effect.removeSnowAll = 1) := by
  decide

/-- C1 (amended): when a mapped event matches the keyboard-drag signature
(non-synthetic, window equal to the recorded candidate, sent from the root
window, not override-redirect), the active app window is non-`None`, and the
click-and-hold heuristic does not resolve a drag window (otherwise its early
return preempts), the drag state becomes DraggingKeyboard of the active app
window and the clear-all signal `removeFallenSnowFromAllWindows` fires
exactly once. -/
theorem onWindowMapped_keyboard_drag_transition (s : St) (env : HandlerEnv)
    (e : XMapEvent)
    (hsig : e.send_event = 0 ∧ e.window = s.mActiveAppDragWindowCandidate ∧
      e.event = s.rootwindow ∧ e.override_redirect = 0)
    (hactive : s.mActiveAppWindow ≠ 0)
    (hnoclick :
      clickDragTarget { s with winInfoList := env.newWinInfoList } env e = 0) :
    (onWindowMapped s env e).1.mIsWindowBeingDragged = true ∧
    (onWindowMapped s env e).1.mWindowBeingDragged = s.mActiveAppWindow ∧
    (onWindowMapped s env e).2.count Effect.removeSnowAll = 1 := by
  obtain ⟨h1, h2, h3, h4⟩ := hsig
  simp only [onWindowMapped]
  simp [hnoclick, h1, h2, h3, h4, hactive, List.count_cons]

/-- C1 witness: a concrete state and environment in which the keyboard-drag
signature matches, the pointer is not held, and the transition and single
clear-all signal result. -/
theorem onWindowMapped_keyboard_drag_transition_witness :
    (onWindowMapped stC1 envC1k evMap0).1.mIsWindowBeingDragged = true ∧
    (onWindowMapped stC1 envC1k evMap0).1.mWindowBeingDragged =
      stC1.mActiveAppWindow ∧
    (onWindowMapped stC1 envC1k evMap0).2.count Effect.removeSnowAll = 1 :=
  onWindowMapped_keyboard_drag_transition stC1 envC1k evMap0
    ⟨by decide, by decide, by decide, by decide⟩ (by decide) (by decide)

/-- A tick that fails to acquire the soft lock (or skips for the no-keep-snow
flag) returns `true` and changes at most the lock retry counter. -/
theorem updateWindowsList_contended (s : St) (env : TickEnv)
    (hshut : s.shutdownRequested = false) (hlock : env.lockAcquired = false) :
    updateWindowsList s env =
      ({ s with mUpdateWindowsLockCounter :=
          if s.noKeepSnowOnWindows then s.mUpdateWindowsLockCounter
          else env.lockCounterAfter }, true, []) := by
  unfold updateWindowsList
  have hs : ¬(s.shutdownRequested = true) := by simp [hshut]
  by_cases hk : s.noKeepSnowOnWindows = true
  · simp only [if_neg hs, if_pos hk]
  · have hl : (!env.lockAcquired) = true := by simp [hlock]
    simp only [if_neg hs, if_neg hk, if_pos hl]

/-- C6: arbitrarily many consecutive reconciliation ticks on which the soft
lock is unavailable all return `true` (stay scheduled) and never mutate the
drag state, the window snapshot, the workspace fields, or the
windows-changed flag. -/
theorem updateWindowsList_contended_no_mutation (s : St) (envs : Nat → TickEnv)
    (n : Nat) (hshut : s.shutdownRequested = false)
    (hlock : ∀ i, (envs i).lockAcquired = false) :
    (runTicks s envs n).mIsWindowBeingDragged = s.mIsWindowBeingDragged ∧
    (runTicks s envs n).mWindowBeingDragged = s.mWindowBeingDragged ∧
    (runTicks s envs n).mActiveAppDragWindowCandidate =
      s.mActiveAppDragWindowCandidate ∧
    (runTicks s envs n).winInfoList = s.winInfoList ∧
    (runTicks s envs n).currentWorkspace = s.currentWorkspace ∧
    (runTicks s envs n).nVisWorkSpaces = s.nVisWorkSpaces ∧
    (runTicks s envs n).visWorkSpaces = s.visWorkSpaces ∧
    (runTicks s envs n).windowsChanged = s.windowsChanged ∧
    (∀ k, k < n → tickRet s envs k = true) := by
  have key : ∀ m, ∃ c, runTicks s envs m =
      { s with mUpdateWindowsLockCounter := c } := by
    intro m
    induction m with
    | zero => exact ⟨s.mUpdateWindowsLockCounter, by simp [runTicks]⟩
    | succ k ih =>
      obtain ⟨c, hc⟩ := ih
      refine ⟨if s.noKeepSnowOnWindows then c else (envs k).lockCounterAfter, ?_⟩
      rw [runTicks, hc,
        updateWindowsList_contended _ _ (by simp [hshut]) (hlock k)]
  obtain ⟨c, hc⟩ := key n
  refine ⟨by rw [hc], by rw [hc], by rw [hc], by rw [hc], by rw [hc],
    by rw [hc], by rw [hc], by rw [hc], ?_⟩
  intro k _
  obtain ⟨ck, hck⟩ := key k
  rw [tickRet, hck,
    updateWindowsList_contended _ _ (by simp [hshut]) (hlock k)]

/-- C6 witness: five concrete contended ticks leave the listed state
components unchanged and each returns `true`. -/
theorem updateWindowsList_contended_no_mutation_witness :
    (runTicks st0 (fun _ => envLocked) 5).mIsWindowBeingDragged =
      st0.mIsWindowBeingDragged ∧
    (runTicks st0 (fun _ => envLocked) 5).mWindowBeingDragged =
      st0.mWindowBeingDragged ∧
    (runTicks st0 (fun _ => envLocked) 5).mActiveAppDragWindowCandidate =
      st0.mActiveAppDragWindowCandidate ∧
    (runTicks st0 (fun _ => envLocked) 5).winInfoList = st0.winInfoList ∧
    (runTicks st0 (fun _ => envLocked) 5).currentWorkspace =
      st0.currentWorkspace ∧
    (runTicks st0 (fun _ => envLocked) 5).nVisWorkSpaces =
      st0.nVisWorkSpaces ∧
    (runTicks st0 (fun _ => envLocked) 5).visWorkSpaces =
      st0.visWorkSpaces ∧
    (runTicks st0 (fun _ => envLocked) 5).windowsChanged =
      st0.windowsChanged ∧
    (∀ k, k < 5 → tickRet st0 (fun _ => envLocked) k = true) :=
  updateWindowsList_contended_no_mutation st0 (fun _ => envLocked) 5
    (by decide) (fun _ => rfl)

/-- Workspace discovery never touches the loop counter. -/
@[simp] theorem getCurrentWorkspaceData_wcounter (s : St) (env : WsEnv) :
    (getCurrentWorkspaceData s env).1.wcounter = s.wcounter := by
  unfold getCurrentWorkspaceData
  by_cases hd : s.hasDestopWindow = false
  · simp [hd]
  · cases hx : env.xinerama with
    | none => simp [hd, hx]
    | some l => by_cases hl : l.length = 1 <;> simp [hd, hx, hl]

/-- Workspace discovery never touches the windows-changed flag. -/
@[simp] theorem getCurrentWorkspaceData_windowsChanged (s : St) (env : WsEnv) :
    (getCurrentWorkspaceData s env).1.windowsChanged = s.windowsChanged := by
  unfold getCurrentWorkspaceData
  by_cases hd : s.hasDestopWindow = false
  · simp [hd]
  · cases hx : env.xinerama with
    | none => simp [hd, hx]
    | some l => by_cases hl : l.length = 1 <;> simp [hd, hx, hl]

/-- Workspace discovery never requests shutdown. -/
@[simp] theorem getCurrentWorkspaceData_shutdown (s : St) (env : WsEnv) :
    (getCurrentWorkspaceData s env).1.shutdownRequested =
      s.shutdownRequested := by
  unfold getCurrentWorkspaceData
  by_cases hd : s.hasDestopWindow = false
  · simp [hd]
  · cases hx : env.xinerama with
    | none => simp [hd, hx]
    | some l => by_cases hl : l.length = 1 <;> simp [hd, hx, hl]

/-- Workspace discovery never touches the no-keep-snow flag. -/
@[simp] theorem getCurrentWorkspaceData_noKeep (s : St) (env : WsEnv) :
    (getCurrentWorkspaceData s env).1.noKeepSnowOnWindows =
      s.noKeepSnowOnWindows := by
  unfold getCurrentWorkspaceData
  by_cases hd : s.hasDestopWindow = false
  · simp [hd]
  · cases hx : env.xinerama with
    | none => simp [hd, hx]
    | some l => by_cases hl : l.length = 1 <;> simp [hd, hx, hl]

/-- Workspace discovery never touches the drag flag. -/
@[simp] theorem getCurrentWorkspaceData_drag (s : St) (env : WsEnv) :
    (getCurrentWorkspaceData s env).1.mIsWindowBeingDragged =
      s.mIsWindowBeingDragged := by
  unfold getCurrentWorkspaceData
  by_cases hd : s.hasDestopWindow = false
  · simp [hd]
  · cases hx : env.xinerama with
    | none => simp [hd, hx]
    | some l => by_cases hl : l.length = 1 <;> simp [hd, hx, hl]

/-- On a tick with the lock granted (and no early return), `updateWindowsList`
is the locked body applied after recording the retry counter. -/
theorem updateWindowsList_locked_eq (s : St) (env : TickEnv)
    (h1 : s.shutdownRequested = false) (h2 : s.noKeepSnowOnWindows = false)
    (h3 : env.lockAcquired = true) :
    updateWindowsList s env =
      lockedTick { s with mUpdateWindowsLockCounter := env.lockCounterAfter }
        env := by
  unfold updateWindowsList
  simp [h1, h2, h3]

/-- An unchanged, unforced locked tick only advances the counter, releases
the lock, and returns `true`. -/
theorem lockedTick_skip_eq (s : St) (env : TickEnv)
    (h4 : env.changedExternally = false) (h5 : s.windowsChanged = false)
    (h6 : s.wcounter + 1 ≤ 9) :
    lockedTick s env =
      ({ s with wcounter := s.wcounter + 1 }, true, [Effect.unlock]) := by
  unfold lockedTick
  have hw : ¬(s.wcounter + 1 > 9) := by omega
  simp [h4, h5, hw]

/-- A locked tick whose counter rolls past 9 forces the change flag and
processes, with the counter reset. -/
theorem lockedTick_forced_eq (s : St) (env : TickEnv)
    (h6 : s.wcounter + 1 > 9) :
    lockedTick s env =
      processChangedTick { s with windowsChanged := false, wcounter := 0 }
        env := by
  unfold lockedTick
  simp [h6]

/-- A locked tick whose change flag is up (and whose counter does not roll
over) consumes the flag and processes. -/
theorem lockedTick_unforced_changed_eq (s : St) (env : TickEnv)
    (hch : (s.windowsChanged || env.changedExternally) = true)
    (h6 : s.wcounter + 1 ≤ 9) :
    lockedTick s env =
      processChangedTick
        { s with windowsChanged := false, wcounter := s.wcounter + 1 } env := by
  unfold lockedTick
  have hw : ¬(s.wcounter + 1 > 9) := by omega
  simp [hw, hch]

/-- A negative workspace answer makes the processing tail go fatal: unlock,
error report, shutdown request, `true` to the scheduler. -/
theorem processChangedTick_fatal (s : St) (env : TickEnv)
    (h5 : env.workspaceNumber < 0) :
    processChangedTick s env =
      ({ s with shutdownRequested := true }, true,
       [Effect.unlock, Effect.fatalError]) := by
  unfold processChangedTick
  simp [h5]

/-- A processing tail that does not request shutdown keeps the counter and
flags, returns `true`, reconciles the accumulation engine, and — absent a
drag — refreshes the window list. -/
theorem processChangedTick_facts (s : St) (env : TickEnv)
    (hres : (processChangedTick s env).1.shutdownRequested = false) :
    (processChangedTick s env).1.wcounter = s.wcounter ∧
    (processChangedTick s env).1.windowsChanged = s.windowsChanged ∧
    (processChangedTick s env).1.noKeepSnowOnWindows =
      s.noKeepSnowOnWindows ∧
    (processChangedTick s env).2.1 = true ∧
    Effect.fallenUpdates ∈ (processChangedTick s env).2.2 ∧
    (s.mIsWindowBeingDragged = false →
      Effect.refreshWinList ∈ (processChangedTick s env).2.2) := by
  simp only [processChangedTick] at hres ⊢
  split_ifs at hres ⊢ <;> simp_all

/-- An unforced, unchanged tick: ticks whose counter stays at or below 9
release the lock and return `true` having only advanced the counter and
recorded the retry counter. -/
theorem updateWindowsList_skip (s : St) (env : TickEnv)
    (h1 : s.shutdownRequested = false) (h2 : s.noKeepSnowOnWindows = false)
    (h3 : env.lockAcquired = true) (h4 : env.changedExternally = false)
    (h5 : s.windowsChanged = false) (h6 : s.wcounter + 1 ≤ 9) :
    updateWindowsList s env =
      ({ s with mUpdateWindowsLockCounter := env.lockCounterAfter
                wcounter := s.wcounter + 1 }, true, [Effect.unlock]) := by
  rw [updateWindowsList_locked_eq s env h1 h2 h3]
  rw [lockedTick_skip_eq _ _ h4 (by simpa using h5) (by simpa using h6)]

/-- A forced tick (counter rolling past 9) that does not go fatal: the
counter resets, the change flag is consumed, the scheduler keeps the
callback, the accumulation engine is reconciled, and — absent a drag — the
full window-list refresh runs. -/
theorem updateWindowsList_forced (s : St) (env : TickEnv)
    (h1 : s.shutdownRequested = false) (h2 : s.noKeepSnowOnWindows = false)
    (h3 : env.lockAcquired = true) (h6 : s.wcounter + 1 > 9)
    (hres : (updateWindowsList s env).1.shutdownRequested = false) :
    (updateWindowsList s env).1.wcounter = 0 ∧
    (updateWindowsList s env).1.windowsChanged = false ∧
    (updateWindowsList s env).1.noKeepSnowOnWindows = false ∧
    (updateWindowsList s env).2.1 = true ∧
    Effect.fallenUpdates ∈ (updateWindowsList s env).2.2 ∧
    (updateWindowsList s env).2.2 ≠ [Effect.unlock] ∧
    (s.mIsWindowBeingDragged = false →
      Effect.refreshWinList ∈ (updateWindowsList s env).2.2) := by
  rw [updateWindowsList_locked_eq s env h1 h2 h3] at hres ⊢
  rw [lockedTick_forced_eq _ _ (by simpa using h6)] at hres ⊢
  have hf := processChangedTick_facts _ env hres
  refine ⟨by simpa using hf.1, by simpa using hf.2.1,
    by simpa [h2] using hf.2.2.1, hf.2.2.2.1, hf.2.2.2.2.1, ?_, ?_⟩
  · intro h
    have hm := hf.2.2.2.2.1
    rw [h] at hm
    simp at hm
  · intro hd
    exact hf.2.2.2.2.2 (by simpa using hd)

/-- C7: a tick that reaches the workspace query (lock granted, change flag
effectively set) and gets a negative workspace number releases the lock,
reports the fatal error, requests shutdown, performs no snapshot refresh,
workspace discovery, or accumulation-engine reconciliation, still returns
`true`, and the following tick returns `false` (stops rescheduling). -/
theorem updateWindowsList_invalid_workspace_fatal (s : St) (env env2 : TickEnv)
    (h1 : s.shutdownRequested = false) (h2 : s.noKeepSnowOnWindows = false)
    (h3 : env.lockAcquired = true)
    (h4 : s.windowsChanged = true ∨ env.changedExternally = true ∨
      s.wcounter + 1 > 9)
    (h5 : env.workspaceNumber < 0) :
    (updateWindowsList s env).1.shutdownRequested = true ∧
    (updateWindowsList s env).2.1 = true ∧
    (updateWindowsList s env).2.2 = [Effect.unlock, Effect.fatalError] ∧
    Effect.refreshWinList ∉ (updateWindowsList s env).2.2 ∧
    Effect.fallenUpdates ∉ (updateWindowsList s env).2.2 ∧
    (updateWindowsList (updateWindowsList s env).1 env2).2.1 = false := by
  have heq : ∃ t : St, t.shutdownRequested = true ∧
      updateWindowsList s env =
        (t, true, [Effect.unlock, Effect.fatalError]) := by
    rw [updateWindowsList_locked_eq s env h1 h2 h3]
    by_cases hw : s.wcounter + 1 > 9
    · rw [lockedTick_forced_eq _ _ (by simpa using hw)]
      rw [processChangedTick_fatal _ _ h5]
      exact ⟨_, rfl, rfl⟩
    · have hch : (s.windowsChanged || env.changedExternally) = true := by
        rcases h4 with h | h | h
        · simp [h]
        · simp [h]
        · omega
      rw [lockedTick_unforced_changed_eq _ _ (by simpa using hch)
        (by simp; omega)]
      rw [processChangedTick_fatal _ _ h5]
      exact ⟨_, rfl, rfl⟩
  obtain ⟨t, ht, heq⟩ := heq
  rw [heq]
  refine ⟨ht, rfl, rfl, by simp, by simp, ?_⟩
  simp [updateWindowsList, ht]

/-- C3: starting a run of consecutive processed ticks (lock granted, flags
off, the change flag raised by no other source) with the counter and flag
clear, the unchanged skip is taken on every tick except each 10th one: ticks
`k` with `k % 10 ≠ 0` return `true` with only the unlock effect, having
advanced the counter; each tick `k` with `k % 10 = 0` forces the refresh
(processing past the skip: the accumulation engine is reconciled and —
absent a drag — the window list is rebuilt), and the counter and flag are
reset so the pattern repeats with period 10. -/
theorem updateWindowsList_forced_refresh_period_ten (s : St)
    (envs : Nat → TickEnv) (n : Nat)
    (hw0 : s.wcounter = 0) (hch0 : s.windowsChanged = false)
    (hnk : s.noKeepSnowOnWindows = false)
    (hlock : ∀ i, (envs i).lockAcquired = true)
    (hext : ∀ i, (envs i).changedExternally = false)
    (hshut : ∀ k, k ≤ n → (runTicks s envs k).shutdownRequested = false) :
    ∀ k, 1 ≤ k → k ≤ n →
      (runTicks s envs k).wcounter = k % 10 ∧
      (k % 10 ≠ 0 →
        tickRet s envs (k - 1) = true ∧
        tickEffs s envs (k - 1) = [Effect.unlock] ∧
        runTicks s envs k =
          { runTicks s envs (k - 1) with
              mUpdateWindowsLockCounter := (envs (k - 1)).lockCounterAfter
              wcounter := k % 10 }) ∧
      (k % 10 = 0 →
        tickRet s envs (k - 1) = true ∧
        Effect.fallenUpdates ∈ tickEffs s envs (k - 1) ∧
        tickEffs s envs (k - 1) ≠ [Effect.unlock] ∧
        ((runTicks s envs (k - 1)).mIsWindowBeingDragged = false →
          Effect.refreshWinList ∈ tickEffs s envs (k - 1)) ∧
        (runTicks s envs k).windowsChanged = false) := by
  have inv : ∀ k, k ≤ n → (runTicks s envs k).wcounter = k % 10 ∧
      (runTicks s envs k).windowsChanged = false ∧
      (runTicks s envs k).noKeepSnowOnWindows = false := by
    intro k
    induction k with
    | zero =>
      intro _
      exact ⟨by simp [runTicks, hw0], by simp [runTicks, hch0],
        by simp [runTicks, hnk]⟩
    | succ m ih =>
      intro hm
      have hmn : m ≤ n := Nat.le_of_succ_le hm
      obtain ⟨iw, ic, ik⟩ := ih hmn
      have hsm := hshut m hmn
      have hrun : runTicks s envs (m + 1) =
          (updateWindowsList (runTicks s envs m) (envs m)).1 := rfl
      by_cases hmod : m % 10 = 9
      · have h6 : (runTicks s envs m).wcounter + 1 > 9 := by omega
        have hres : (updateWindowsList (runTicks s envs m)
            (envs m)).1.shutdownRequested = false := by
          have hx := hshut (m + 1) hm
          rw [hrun] at hx
          exact hx
        have f := updateWindowsList_forced (runTicks s envs m) (envs m) hsm ik
          (hlock m) h6 hres
        refine ⟨?_, ?_, ?_⟩
        · rw [hrun, f.1]; omega
        · rw [hrun]; exact f.2.1
        · rw [hrun]; exact f.2.2.1
      · have h6 : (runTicks s envs m).wcounter + 1 ≤ 9 := by omega
        have sk := updateWindowsList_skip (runTicks s envs m) (envs m) hsm ik
          (hlock m) (hext m) ic h6
        rw [hrun, sk]
        refine ⟨?_, by simp [ic], by simp [ik]⟩
        simp [iw]
        omega
  intro k hk1 hkn
  obtain ⟨m, rfl⟩ : ∃ m, k = m + 1 := ⟨k - 1, by omega⟩
  have hmn : m ≤ n := Nat.le_of_succ_le hkn
  obtain ⟨iw, ic, ik⟩ := inv m hmn
  have hsm := hshut m hmn
  have hrun : runTicks s envs (m + 1) =
      (updateWindowsList (runTicks s envs m) (envs m)).1 := rfl
  have e1 : m + 1 - 1 = m := by omega
  by_cases hmod : m % 10 = 9
  · have hmod10 : (m + 1) % 10 = 0 := by omega
    have h6 : (runTicks s envs m).wcounter + 1 > 9 := by omega
    have hres : (updateWindowsList (runTicks s envs m)
        (envs m)).1.shutdownRequested = false := by
      have hx := hshut (m + 1) hkn
      rw [hrun] at hx
      exact hx
    have f := updateWindowsList_forced (runTicks s envs m) (envs m) hsm ik
      (hlock m) h6 hres
    refine ⟨by rw [hrun, f.1, hmod10], fun h => absurd hmod10 h, fun _ => ?_⟩
    rw [e1]
    exact ⟨f.2.2.2.1, f.2.2.2.2.1, f.2.2.2.2.2.1, f.2.2.2.2.2.2,
      by rw [hrun]; exact f.2.1⟩
  · have hplus : (m + 1) % 10 = m % 10 + 1 := by omega
    have hne : (m + 1) % 10 ≠ 0 := by omega
    have h6 : (runTicks s envs m).wcounter + 1 ≤ 9 := by omega
    have sk := updateWindowsList_skip (runTicks s envs m) (envs m) hsm ik
      (hlock m) (hext m) ic h6
    refine ⟨?_, fun _ => ?_, fun h => absurd h hne⟩
    · rw [hrun, sk]
      simp [iw]
      omega
    · rw [e1]
      refine ⟨?_, ?_, ?_⟩
      · show (updateWindowsList (runTicks s envs m) (envs m)).2.1 = true
        rw [sk]
      · show (updateWindowsList (runTicks s envs m) (envs m)).2.2 =
          [Effect.unlock]
        rw [sk]
      · rw [hrun, sk]
        have hw : (runTicks s envs m).wcounter + 1 = (m + 1) % 10 := by omega
        rw [hw]

/-- C3 witness: a concrete 20-tick run from the quiescent state: tick 3
skips with only the unlock effect, tick 10 reconciles the accumulation
engine and rebuilds the window list, and the counter is back at 0 after
tick 20. -/
theorem updateWindowsList_forced_refresh_period_ten_witness :
    (runTicks st0 (fun _ => envTick) 20).wcounter = 0 ∧
    tickEffs st0 (fun _ => envTick) 2 = [Effect.unlock] ∧
    Effect.fallenUpdates ∈ tickEffs st0 (fun _ => envTick) 9 ∧
    Effect.refreshWinList ∈ tickEffs st0 (fun _ => envTick) 9 := by
  have h3 := updateWindowsList_forced_refresh_period_ten st0
    (fun _ => envTick) 20 (by decide) (by decide) (by decide) (fun _ => rfl)
    (fun _ => rfl) (by decide) 3 (by decide) (by decide)
  have h10 := updateWindowsList_forced_refresh_period_ten st0
    (fun _ => envTick) 20 (by decide) (by decide) (by decide) (fun _ => rfl)
    (fun _ => rfl) (by decide) 10 (by decide) (by decide)
  have h20 := updateWindowsList_forced_refresh_period_ten st0
    (fun _ => envTick) 20 (by decide) (by decide) (by decide) (fun _ => rfl)
    (fun _ => rfl) (by decide) 20 (by decide) (by decide)
  refine ⟨by simpa using h20.1, (h3.2.1 (by decide)).2.1,
    (h10.2.2 (by decide)).2.1, ?_⟩
  exact (h10.2.2 (by decide)).2.2.2.1 (by decide)

/-- C7 witness: a concrete tick with the change flag set and a `-1`
workspace answer goes fatal exactly as described, and the next tick stops. -/
theorem updateWindowsList_invalid_workspace_fatal_witness :
    (updateWindowsList stChanged envFatal).1.shutdownRequested = true ∧
    (updateWindowsList stChanged envFatal).2.1 = true ∧
    (updateWindowsList stChanged envFatal).2.2 =
      [Effect.unlock, Effect.fatalError] ∧
    Effect.refreshWinList ∉ (updateWindowsList stChanged envFatal).2.2 ∧
    Effect.fallenUpdates ∉ (updateWindowsList stChanged envFatal).2.2 ∧
    (updateWindowsList (updateWindowsList stChanged envFatal).1
      envTick).2.1 = false :=
  updateWindowsList_invalid_workspace_fatal stChanged envFatal envTick
    (by decide) (by decide) (by decide) (Or.inl (by decide)) (by decide)

end PlasmaSnow
